import Mathlib

/-!
Verification of the FAR sidecar-metadata cache (`far_gen.py`).

The embedding models the cache controller `generate_file_meta`, the
aggregator `generate_dir_meta`, and the orphan sweep of `main` as pure
functions.  Filesystem reads, `os.stat`, `get_sha256` and the extractor
catalog are oracles supplied as inputs (they are external collaborators in
the spec).  All text is represented as `List Char`; a whole artifact file
is represented by its list of lines (`List Line`).  This line-granular
rendering of Python's raw-text operations is sound here because every
needle the code feeds to the `in` operator, and the pattern/replacement it
feeds to `str.replace`, are newline-free, so raw-text substring search and
replacement decompose exactly line by line.  Numeric values (`st_size`,
`st_mtime`, the sha256 digest, timestamps) enter the code only through
their `str()` renderings, so they are modelled directly as the rendered
character lists.
-/

/-- A piece of text with no newline in it: one line, or one rendered value. -/
abbrev Line := List Char

/-- Python `str.strip` whitespace test, restricted to the ASCII whitespace
that can actually occur in the artifact header lines. -/
def pySpace (c : Char) : Bool :=
  c = ' ' ∨ c = '\t' ∨ c = '\n' ∨ c = '\r' ∨ c = '\x0b' ∨ c = '\x0c'

/-- Python `str.strip`: drop whitespace from both ends. -/
def pyStrip (s : Line) : Line :=
  ((s.dropWhile pySpace).reverse.dropWhile pySpace).reverse

/-- Fuel-driven core of Python `str.replace`: replace every leftmost,
non-overlapping occurrence of `pat` by `rep`.  The fuel is always at least
the length of the remaining input, so the `0, s` clause is unreachable. -/
def replCore (pat rep : Line) : Nat → Line → Line
  | _, [] => []
  | 0, s => s
  | n + 1, c :: rest =>
    if pat.isPrefixOf (c :: rest) then
      rep ++ replCore pat rep n (rest.drop (pat.length - 1))
    else
      c :: replCore pat rep n rest

/-- Python `s.replace(pat, rep)` for a nonempty, newline-free `pat`. -/
def replaceAll (pat rep s : Line) : Line :=
  replCore pat rep s.length s

/-- Python `needle in raw` where `raw` is the file text and `needle` holds
no newline: some line of the file contains `needle` as a contiguous
substring. -/
def containsLine (c : List Line) (needle : Line) : Prop :=
  ∃ l ∈ c, needle <:+: l

instance (c : List Line) (needle : Line) : Decidable (containsLine c needle) := by
  unfold containsLine
  exact inferInstance

/-- The pipeline identifier `PIPELINE_ID = "far_gen_v12"`. -/
def PIPELINE_ID : Line := "far_gen_v12".toList

/-- Cap `MAX_DIR_SUMMARY_FILES = 50` on per-directory summary entries. -/
def MAX_DIR_SUMMARY_FILES : Nat := 50

/-- Needle of the fast mtime check: `f"mtime: {current_mtime}"`. -/
def mtimeNeedle (m : Line) : Line := "mtime: ".toList ++ m

/-- Needle of the fast size check: `f"size: {current_size}"`. -/
def sizeNeedle (s : Line) : Line := "size: ".toList ++ s

/-- Needle of the pipeline check: `f"pipeline: {PIPELINE_ID}"`. -/
def pipelineNeedle : Line := "pipeline: ".toList ++ PIPELINE_ID

/-- Needle of the hash check: `f"sha256: {current_hash}"`. -/
def sha256Needle (h : Line) : Line := "sha256: ".toList ++ h

/-- The cheap validity test of `generate_file_meta` (lines 784-786): the
three rendered strings each occur somewhere in the artifact text. -/
def fastChecks (c : List Line) (mtime size : Line) : Prop :=
  containsLine c (mtimeNeedle mtime) ∧ containsLine c (sizeNeedle size) ∧
    containsLine c pipelineNeedle

instance (c : List Line) (m s : Line) : Decidable (fastChecks c m s) := by
  unfold fastChecks
  exact inferInstance

/-- The hash-path validity test of `generate_file_meta` (lines 802-803). -/
def hashChecks (c : List Line) (hash : Line) : Prop :=
  containsLine c (sha256Needle hash) ∧ containsLine c pipelineNeedle

instance (c : List Line) (h : Line) : Decidable (hashChecks c h) := by
  unfold hashChecks
  exact inferInstance

/-- Predicate of the generator expression at line 806:
`l.strip().startswith('mtime:')`. -/
def mtimeLinePred (l : Line) : Bool :=
  "mtime:".toList.isPrefixOf (pyStrip l)

/-- Header prefix of the stored mtime field, `"  mtime: "`. -/
def mtimeKey : Line := "  mtime: ".toList

/-- Inputs of one `generate_file_meta` call.  `stat` is the `os.stat`
oracle (`none` models `FileNotFoundError`), rendered as
`(str(st_mtime), str(st_size))`.  `hash` is the `get_sha256` oracle
(`none` models an unreadable or vanished file).  `meta` is the current
text of the sidecar artifact (`none`: absent, or unreadable so that every
`open` of it raises and the `except` arms fire).  `mime`, `layout`,
`body`, `ts` are what the mime sniffer, the extractor catalog and
`datetime.now` would deliver if extraction runs. -/
structure GenEnv where
  force : Bool
  ignored : Bool
  stat : Option (Line × Line)
  hash : Option Line
  meta : Option (List Line)
  mime : Line
  layout : List Line
  body : List Line
  fname : Line
  ts : Line
deriving DecidableEq

/-- Observable outcome of one `generate_file_meta` call: whether it
returned the artifact path (`ret`), whether `get_sha256` was invoked
(`hashed`), whether the extractor dispatch ran (`extracted`), and the text
written to the artifact file, if any (`written = none` means the artifact
bytes and its filesystem mtime are untouched). -/
structure Outcome where
  ret : Bool
  hashed : Bool
  extracted : Bool
  written : Option (List Line)
deriving DecidableEq

/-- The artifact text written by a full extraction (the `meta_content`
f-string at lines 881-895), as its list of lines. -/
def writtenMetaLines (hash mime size mtime ts : Line) (layout : List Line)
    (fname : Line) (body : List Line) : List Line :=
  ["--far_version: 1".toList, "source:".toList,
   "  sha256: ".toList ++ hash, "  mime: ".toList ++ mime,
   "  size: ".toList ++ size, "  mtime: ".toList ++ mtime,
   "extract:".toList, "  pipeline: ".toList ++ PIPELINE_ID,
   "  extracted_at: ".toList ++ ts, "  deterministic: true".toList]
  ++ layout
  ++ ["---".toList, "# ".toList ++ fname, ([] : Line)]
  ++ body

/-- Outcome of the full-extraction arm (lines 815-900): dispatch the
extractor, then write a fresh artifact carrying the current hash, size,
mtime and timestamp. -/
def extractOutcome (e : GenEnv) (mtime size hash : Line) : Outcome :=
  ⟨true, true, true,
    some (writtenMetaLines hash e.mime size mtime e.ts e.layout e.fname e.body)⟩

/-- The cache controller `generate_file_meta` (lines 764-900), as a pure
function of its oracles.  Control flow follows the source: ignore test,
`os.stat`, cheap check, `get_sha256`, hash check with the in-place mtime
touch, full extraction. -/
def generate_file_meta (e : GenEnv) : Outcome :=
  if e.ignored then ⟨false, false, false, none⟩ else
  match e.stat with
  | none => ⟨false, false, false, none⟩
  | some (mtime, size) =>
    match e.meta with
    | some c =>
      if e.force = false ∧ fastChecks c mtime size then
        ⟨true, false, false, none⟩
      else
        match e.hash with
        | none => ⟨false, true, false, none⟩
        | some h =>
          if e.force = false ∧ hashChecks c h then
            match c.find? mtimeLinePred with
            | some old =>
              ⟨true, true, false,
                some (c.map (fun l => replaceAll old (mtimeKey ++ mtime) l))⟩
            | none => extractOutcome e mtime size h
          else extractOutcome e mtime size h
    | none =>
      match e.hash with
      | none => ⟨false, true, false, none⟩
      | some h => extractOutcome e mtime size h

/-- Raw text of an artifact file from its lines: newline-separated with the
trailing newline the writing f-string always appends. -/
def rawOf (ls : List Line) : Line :=
  List.intercalate ['\n'] ls ++ ['\n']

/-- Fuel-driven core of Python `str.split(sep)` for nonempty `sep`:
leftmost, non-overlapping separator occurrences.  Fuel is at least the
length of the remaining input, so the `0` clause is unreachable. -/
def splitCore (sep : Line) : Nat → Line → Line → List Line
  | _, cur, [] => [cur.reverse]
  | 0, cur, s => [cur.reverse ++ s]
  | n + 1, cur, c :: rest =>
    if sep.isPrefixOf (c :: rest) then
      cur.reverse :: splitCore sep n [] (rest.drop (sep.length - 1))
    else
      splitCore sep n (c :: cur) rest

/-- Python `s.split(sep)` for nonempty `sep`. -/
def pySplitOn (sep s : Line) : List Line :=
  splitCore sep s.length [] s

/-- Python `s.splitlines()` for text whose only line terminator is a
newline and which carries no trailing newline (the stripped body here). -/
def pySplitlines (s : Line) : List Line :=
  if s = [] then [] else pySplitOn ['\n'] s

/-- Core of Python `s.split()`: whitespace-run separated words. -/
def wordsCore : Line → Line → List Line
  | cur, [] => if cur = [] then [] else [cur.reverse]
  | cur, c :: rest =>
    if pySpace c then
      if cur = [] then wordsCore [] rest else cur.reverse :: wordsCore [] rest
    else
      wordsCore (c :: cur) rest

/-- Python `" ".join(s.split())`: collapse whitespace runs to single
spaces and strip the ends. -/
def collapseWS (s : Line) : Line :=
  List.intercalate [' '] (wordsCore [] s)

/-- The snippet a directory summary entry shows for one artifact
(lines 918-930 of `generate_dir_meta`): split the raw artifact text on the
header delimiter, strip the final part, drop one leading markdown title
line, collapse whitespace, keep 150 characters, and append an ellipsis
whenever the result is nonempty.  `none` models an unreadable artifact
(`except: pass` leaves the snippet empty). -/
def snippetOf (content : Option Line) : Line :=
  match content with
  | none => []
  | some raw =>
    let parts := pySplitOn "\n---\n".toList raw
    if 2 ≤ parts.length then
      let body := pyStrip (parts.getLastD [])
      let body2 :=
        match pySplitlines body with
        | first :: rest =>
          if "# ".toList.isPrefixOf first then
            pyStrip (List.intercalate ['\n'] rest)
          else body
        | [] => body
      let clean := (collapseWS body2).take 150
      if clean = [] then [] else clean ++ "...".toList
    else []

/-- One listed entry of the directory summary: `f"- **{file}**: {snippet}"`. -/
def entryLine (file : Line) (meta : Option Line) : Line :=
  "- **".toList ++ file ++ "**: ".toList ++ snippetOf meta

/-- The entry loop of `generate_dir_meta` (lines 912-933): list entries in
caller order until the cap, then emit one `... and N more files.` marker
(the marker string keeps the leading newline of the f-string) and stop. -/
def dirEntriesLoop (total : Nat) : Nat → List (Line × Option Line) → List Line
  | _, [] => []
  | count, (f, m) :: rest =>
    if MAX_DIR_SUMMARY_FILES ≤ count then
      ["\n... and ".toList ++ Nat.toDigits 10 (total - count)
        ++ " more files.".toList]
    else
      entryLine f m :: dirEntriesLoop total (count + 1) rest

/-- The raw text `generate_dir_meta` writes to `.dir.meta`
(lines 902-944), for a non-ignored directory: header with a fresh
timestamp, delimiter, then the summary lines joined by newlines.
`files_in_dir` pairs each processed filename with the raw text of its
artifact (`none`: the artifact could not be read back). -/
def generate_dir_meta (dirname ts : Line)
    (files_in_dir : List (Line × Option Line)) : Line :=
  let summary_lines :=
    ("# Directory: ".toList ++ dirname)
    :: ("Contains ".toList ++ Nat.toDigits 10 files_in_dir.length
        ++ " files processed by FAR.\n".toList)
    :: dirEntriesLoop files_in_dir.length 0 files_in_dir
  "--far_version: 1\ntype: directory\nextract:\n  pipeline: ".toList
    ++ PIPELINE_ID ++ "\n  extracted_at: ".toList ++ ts ++ "\n---\n".toList
    ++ List.intercalate ['\n'] summary_lines ++ ['\n']

/-- The orphan test of the cleanup sweep (lines 975-978): a `.meta` file,
not the directory artifact, whose name with the suffix stripped is absent
from the directory listing. -/
def isOrphanMeta (files : List Line) (f : Line) : Prop :=
  ".meta".toList <:+ f ∧ f ≠ ".dir.meta".toList ∧
    f.take (f.length - 5) ∉ files

instance (files : List Line) (f : Line) : Decidable (isOrphanMeta files f) := by
  unfold isOrphanMeta
  exact inferInstance

/-- The cleanup sweep of `main` (lines 974-984): walk the directory
listing and delete every orphaned artifact from the disk state; the orphan
test always consults the immutable listing snapshot. -/
def sweepOrphans (files disk : List Line) : List Line :=
  files.foldl (fun d f => if isOrphanMeta files f then d.erase f else d) disk

/-- Artifact text on disk after one `generate_file_meta` call: the written
text if the call wrote, otherwise the prior state. -/
def metaAfter (e : GenEnv) (o : Outcome) : Option (List Line) :=
  match o.written with
  | some w => some w
  | none => e.meta

/-- Result of one walk visit to a directory: the per-file outcomes, the
artifact states after the visit, and the `.dir.meta` text written (written
exactly when some file was processed successfully). -/
structure DirResult where
  outcomes : List Outcome
  metasAfter : List (Option (List Line))
  dirMeta : Option Line
deriving DecidableEq

/-- One iteration of the processing loop of `main` (lines 987-993): run
the cache controller on a listed file, with this pass's timestamp oracle. -/
def stepFile (ts : Line) (p : Line × GenEnv) : Line × GenEnv × Outcome :=
  (p.1, { p.2 with ts := ts }, generate_file_meta { p.2 with ts := ts })

/-- The processing loop of `main` over a directory listing. -/
def passResults (ts : Line) (fs : List (Line × GenEnv)) :
    List (Line × GenEnv × Outcome) :=
  fs.map (stepFile ts)

/-- The `processed_files` list `main` hands to `generate_dir_meta`: the
files whose call returned an artifact path, in listing order, each paired
with the raw text its artifact holds after the call. -/
def processedOf (rs : List (Line × GenEnv × Outcome)) :
    List (Line × Option Line) :=
  (rs.filter (fun r => r.2.2.ret)).map
    (fun r => (r.1, (metaAfter r.2.1 r.2.2).map rawOf))

/-- The per-directory body of the walk in `main` (lines 987-996) for a
non-ignored directory, after the sweep: run `generate_file_meta` on each
listed source file, collect the successes in listing order, and aggregate
them into `.dir.meta` when any file was processed.  The extraction
timestamp oracle `ts` of this pass overrides each file environment. -/
def runDir (dirname : Line) (fs : List (Line × GenEnv)) (ts : Line) :
    DirResult :=
  { outcomes := (passResults ts fs).map (fun r => r.2.2)
    metasAfter := (passResults ts fs).map (fun r => metaAfter r.2.1 r.2.2)
    dirMeta :=
      if (processedOf (passResults ts fs)).isEmpty then none
      else some (generate_dir_meta dirname ts (processedOf (passResults ts fs))) }

/-- Replace each file environment's artifact state, pairing the files of a
listing with the artifact states a previous pass left behind. -/
def updateMetas (fs : List (Line × GenEnv)) (ms : List (Option (List Line))) :
    List (Line × GenEnv) :=
  (fs.zip ms).map (fun q => (q.1.1, { q.1.2 with meta := q.2 }))

/-- Modelled from the spec, for comparison with the substring checks: the
Artifact Store is meant to parse the header into typed fields; this reads
the value the header actually records for a key, namely the remainder of
the first header line of the form `  <key>: <value>`. -/
def recordedField (key : Line) (c : List Line) : Option Line :=
  (c.find? (fun l => ("  ".toList ++ key ++ ": ".toList).isPrefixOf l)).map
    (fun l => l.drop (key.length + 4))

/-- The pipeline version the artifact header records. -/
def recordedPipeline (c : List Line) : Option Line :=
  recordedField "pipeline".toList c

/-- The source mtime the artifact header records. -/
def recordedMtime (c : List Line) : Option Line :=
  recordedField "mtime".toList c

/-- The right-strip half of Python `str.strip`. -/
def pyRStrip (s : Line) : Line :=
  (s.reverse.dropWhile pySpace).reverse

/-- A concrete source file whose artifact matches on the fast path. -/
def c1meta : List Line :=
  writtenMetaLines "aa11".toList "text/plain".toList "10".toList "123.0".toList
    "2026-01-01T00:00:00".toList [] "f.txt".toList ["hi there".toList]

/-- Environment of the C1 witness: artifact present and matching; the
hash oracle is deliberately `none`, which the fast path never consults. -/
def c1env : GenEnv :=
  { force := false, ignored := false,
    stat := some ("123.0".toList, "10".toList), hash := none,
    meta := some c1meta, mime := "text/plain".toList, layout := [],
    body := [], fname := "f.txt".toList, ts := "t".toList }

/-- Artifact recording pipeline version `far_gen_v12_extra`, a strict
extension of the running identifier. -/
def c3meta : List Line :=
  ["--far_version: 1".toList, "source:".toList, "  sha256: aa11".toList,
   "  mime: text/plain".toList, "  size: 10".toList, "  mtime: 123.0".toList,
   "extract:".toList, "  pipeline: far_gen_v12_extra".toList,
   "  extracted_at: t".toList, "  deterministic: true".toList,
   "---".toList, "# f.txt".toList, [], "hi there".toList]

/-- Environment whose current fingerprint matches `c3meta` exactly. -/
def c3env : GenEnv :=
  { force := false, ignored := false,
    stat := some ("123.0".toList, "10".toList), hash := some "aa11".toList,
    meta := some c3meta, mime := "text/plain".toList, layout := [],
    body := [], fname := "f.txt".toList, ts := "t".toList }

/-- Artifact recording a pipeline version the running identifier is not a
substring of. -/
def c3wmeta : List Line :=
  ["--far_version: 1".toList, "source:".toList, "  sha256: aa11".toList,
   "  mime: text/plain".toList, "  size: 10".toList, "  mtime: 123.0".toList,
   "extract:".toList, "  pipeline: far_gen_v11".toList,
   "  extracted_at: t".toList, "  deterministic: true".toList,
   "---".toList, "# f.txt".toList, [], "hi there".toList]

/-- Environment of the C3 witness: fingerprint matches, pipeline does not. -/
def c3wenv : GenEnv :=
  { force := false, ignored := false,
    stat := some ("123.0".toList, "10".toList), hash := some "aa11".toList,
    meta := some c3wmeta, mime := "text/plain".toList, layout := [],
    body := [], fname := "f.txt".toList, ts := "t".toList }

/-- Environment of a vanished file: `os.stat` fails. -/
def c5envStat : GenEnv :=
  { force := false, ignored := false, stat := none, hash := none,
    meta := none, mime := [], layout := [], body := [], fname := [], ts := [] }

/-- Environment of a file that became unreadable after its cheap check
failed: the artifact is stale and `get_sha256` returns null. -/
def c5envHash : GenEnv :=
  { force := false, ignored := false,
    stat := some ("5.0".toList, "3".toList), hash := none,
    meta := some c1meta, mime := [], layout := [], body := [],
    fname := [], ts := [] }

/-- Environment of an unreadable file with no artifact at all. -/
def c5envFresh : GenEnv :=
  { force := false, ignored := false,
    stat := some ("5.0".toList, "3".toList), hash := none,
    meta := none, mime := [], layout := [], body := [], fname := [], ts := [] }

/-- Artifact text that passes the hash check while holding no mtime line
at all. -/
def c2badmeta : List Line :=
  ["sha256: aa11".toList, "pipeline: far_gen_v12".toList]

/-- Environment of the C2 counterexample: stale cheap fingerprint, fresh
hash equal to the recorded one. -/
def c2badenv : GenEnv :=
  { force := false, ignored := false,
    stat := some ("9.0".toList, "3".toList), hash := some "aa11".toList,
    meta := some c2badmeta, mime := "text/plain".toList, layout := [],
    body := ["hi".toList], fname := "f.txt".toList, ts := "t".toList }

/-- Well-formed artifact of the C2 witness, recorded at mtime 9.0. -/
def c2wmeta : List Line :=
  writtenMetaLines "aa11".toList "text/plain".toList "3".toList "9.0".toList
    "t0".toList [] "f.txt".toList ["hi".toList]

/-- Environment of the C2 witness: the file was touched (mtime now 10.5),
its size and content hash are unchanged. -/
def c2wenv : GenEnv :=
  { force := false, ignored := false,
    stat := some ("10.5".toList, "3".toList), hash := some "aa11".toList,
    meta := some c2wmeta, mime := "text/plain".toList, layout := [],
    body := ["hi".toList], fname := "f.txt".toList, ts := "t1".toList }

/-- Listing of the C8 witness: `b.txt.meta` is an orphan, `a.txt.meta`
has its source present. -/
def c8files : List Line :=
  ["a.txt".toList, "a.txt.meta".toList, "b.txt.meta".toList,
   ".dir.meta".toList]

/-- Fifty-one entries for the C6 witness. -/
def c6entries : List (Line × Option Line) :=
  (List.range 51).map (fun i => (Nat.toDigits 10 i, none))

/-- Modelled from the spec, for comparison with the code: the snippet text
the spec describes, before any ellipsis decision - the artifact body (the
text after the final header delimiter), stripped, minus exactly one
leading markdown title line, whitespace-collapsed, truncated to the
150-character budget. -/
def cleanOf (content : Option Line) : Line :=
  match content with
  | none => []
  | some raw =>
    let parts := pySplitOn "\n---\n".toList raw
    if 2 ≤ parts.length then
      let body := pyStrip (parts.getLastD [])
      let body2 :=
        match pySplitlines body with
        | first :: rest =>
          if "# ".toList.isPrefixOf first then
            pyStrip (List.intercalate ['\n'] rest)
          else body
        | [] => body
      (collapseWS body2).take 150
    else []

/-- Raw text of an artifact whose collapsed body is eleven characters. -/
def c7raw : Line :=
  rawOf (writtenMetaLines "aa11".toList "text/plain".toList "3".toList
    "9.0".toList "t0".toList [] "f.txt".toList ["hello world".toList])

/-- The source size the artifact header records. -/
def recordedSize (c : List Line) : Option Line :=
  recordedField "size".toList c

/-- Artifact the C9 exhibit uses: the header records mtime 111.0 and size
999, but a body line embeds the renderings of the current fingerprint and
the pipeline identifier. -/
def c9meta : List Line :=
  ["--far_version: 1".toList, "source:".toList, "  sha256: zz99".toList,
   "  mime: text/plain".toList, "  size: 999".toList, "  mtime: 111.0".toList,
   "extract:".toList, "  pipeline: far_gen_v12".toList,
   "  extracted_at: t".toList, "  deterministic: true".toList,
   "---".toList, "# f.txt".toList, [],
   "note: mtime: 222.0 size: 55 pipeline: far_gen_v12".toList]

/-- Environment of the C9 exhibit: current mtime 222.0, current size 55 -
neither matches the header fields, both occur in the body. -/
def c9env : GenEnv :=
  { force := false, ignored := false,
    stat := some ("222.0".toList, "55".toList), hash := none,
    meta := some c9meta, mime := "text/plain".toList, layout := [],
    body := [], fname := "f.txt".toList, ts := "t".toList }

/-- A listed file of an unchanged, readable, non-ignored tree on which no
force was requested and which has no artifact yet (a fresh first pass). -/
def GoodEnv (p : Line × GenEnv) : Prop :=
  p.2.ignored = false ∧ p.2.force = false ∧ (∃ ms, p.2.stat = some ms)
    ∧ (∃ h, p.2.hash = some h) ∧ p.2.meta = none

/-- Environment of the single file of the C4 tree before the first pass:
readable, not ignored, no force, no artifact yet. -/
def c4env0 : GenEnv :=
  { force := false, ignored := false,
    stat := some ("9.0".toList, "3".toList), hash := some "aa11".toList,
    meta := none, mime := "text/plain".toList, layout := [],
    body := ["hi".toList], fname := "f.txt".toList, ts := "t0".toList }

/-- The one-file directory listing of the C4 tree. -/
def c4fs : List (Line × GenEnv) := [("f.txt".toList, c4env0)]

theorem pyStrip_eq_rstrip (s : Line) :
    pyStrip s = pyRStrip (s.dropWhile pySpace) := rfl

theorem pyRStrip_cons {c : Char} {t : Line} (hc : pySpace c = false) :
    pyRStrip (c :: t) = c :: pyRStrip t := by
  unfold pyRStrip
  rw [List.reverse_cons, List.dropWhile_append]
  by_cases h : (t.reverse.dropWhile pySpace).isEmpty
  · rw [if_pos h]
    rw [List.isEmpty_iff] at h
    simp [List.dropWhile, hc, h]
  · rw [if_neg h]
    simp

theorem replCore_of_not_infix (pat rep : Line) :
    ∀ (n : Nat) (s : Line), ¬ pat <:+: s → replCore pat rep n s = s := by
  intro n
  induction n with
  | zero =>
    intro s _
    cases s <;> rfl
  | succ n ih =>
    intro s hs
    cases s with
    | nil => rfl
    | cons c rest =>
      have hpre : pat.isPrefixOf (c :: rest) = false := by
        by_contra hx
        have : pat.isPrefixOf (c :: rest) = true := by
          revert hx
          cases pat.isPrefixOf (c :: rest) <;> simp
        exact hs (List.isPrefixOf_iff_prefix.mp this).isInfix
      have hrest : ¬ pat <:+: rest := fun hr => hs (List.infix_cons hr)
      simp [replCore, hpre, ih rest hrest]

theorem replaceAll_of_not_infix {pat s : Line} (rep : Line)
    (h : ¬ pat <:+: s) : replaceAll pat rep s = s :=
  replCore_of_not_infix pat rep s.length s h

theorem replCore_self (pat rep : Line) (hp : pat ≠ []) :
    ∀ n : Nat, pat.length ≤ n → replCore pat rep n pat = rep := by
  intro n hn
  cases pat with
  | nil => exact absurd rfl hp
  | cons c rest =>
    cases n with
    | zero => simp at hn
    | succ n =>
      have hpre : (c :: rest).isPrefixOf (c :: rest) = true :=
        List.isPrefixOf_iff_prefix.mpr (List.prefix_refl _)
      simp [replCore, hpre, List.drop_length]

theorem replaceAll_self (pat rep : Line) (hp : pat ≠ []) :
    replaceAll pat rep pat = rep :=
  replCore_self pat rep hp pat.length (Nat.le_refl _)

theorem mtimeLinePred_true (m : Line) :
    mtimeLinePred (mtimeKey ++ m) = true := by
  unfold mtimeLinePred
  rw [pyStrip_eq_rstrip]
  have h1 : (mtimeKey ++ m).dropWhile pySpace = "mtime: ".toList ++ m := by
    rw [show mtimeKey ++ m = ' ' :: ' ' :: ("mtime: ".toList ++ m) from rfl]
    rw [List.dropWhile_cons_of_pos (by decide), List.dropWhile_cons_of_pos (by decide)]
    rw [show ("mtime: ".toList ++ m : Line) = 'm' :: ("time: ".toList ++ m) from rfl]
    rw [List.dropWhile_cons_of_neg (by decide)]
  rw [h1]
  rw [show ("mtime: ".toList ++ m : Line)
      = 'm' :: 't' :: 'i' :: 'm' :: 'e' :: ':' :: (' ' :: m) from rfl]
  rw [pyRStrip_cons (by decide), pyRStrip_cons (by decide),
    pyRStrip_cons (by decide), pyRStrip_cons (by decide),
    pyRStrip_cons (by decide), pyRStrip_cons (by decide)]
  exact List.isPrefixOf_iff_prefix.mpr ⟨_, rfl⟩

theorem mtimeLinePred_sha (h : Line) :
    mtimeLinePred ("  sha256: ".toList ++ h) = false := by
  unfold mtimeLinePred
  rw [pyStrip_eq_rstrip]
  rw [show ("  sha256: ".toList ++ h : Line)
      = ' ' :: ' ' :: 's' :: ("ha256: ".toList ++ h) from rfl]
  rw [List.dropWhile_cons_of_pos (by decide), List.dropWhile_cons_of_pos (by decide),
    List.dropWhile_cons_of_neg (by decide)]
  rw [pyRStrip_cons (by decide)]
  simp [List.isPrefixOf]

theorem mtimeLinePred_mime (m : Line) :
    mtimeLinePred ("  mime: ".toList ++ m) = false := by
  unfold mtimeLinePred
  rw [pyStrip_eq_rstrip]
  rw [show ("  mime: ".toList ++ m : Line)
      = ' ' :: ' ' :: 'm' :: 'i' :: ("me: ".toList ++ m) from rfl]
  rw [List.dropWhile_cons_of_pos (by decide), List.dropWhile_cons_of_pos (by decide),
    List.dropWhile_cons_of_neg (by decide)]
  rw [pyRStrip_cons (by decide), pyRStrip_cons (by decide)]
  simp [List.isPrefixOf]

theorem mtimeLinePred_size (s : Line) :
    mtimeLinePred ("  size: ".toList ++ s) = false := by
  unfold mtimeLinePred
  rw [pyStrip_eq_rstrip]
  rw [show ("  size: ".toList ++ s : Line)
      = ' ' :: ' ' :: 's' :: ("ize: ".toList ++ s) from rfl]
  rw [List.dropWhile_cons_of_pos (by decide), List.dropWhile_cons_of_pos (by decide),
    List.dropWhile_cons_of_neg (by decide)]
  rw [pyRStrip_cons (by decide)]
  simp [List.isPrefixOf]

theorem find?_mtime_written (h mime S M ts : Line) (layout : List Line)
    (fname : Line) (body : List Line) :
    (writtenMetaLines h mime S M ts layout fname body).find? mtimeLinePred
      = some (mtimeKey ++ M) := by
  have e0 : mtimeLinePred ("--far_version: 1".toList) = false := by decide
  have e1 : mtimeLinePred ("source:".toList) = false := by decide
  have e2 : mtimeLinePred ("  sha256: ".toList ++ h) = false := mtimeLinePred_sha h
  have e3 : mtimeLinePred ("  mime: ".toList ++ mime) = false := mtimeLinePred_mime mime
  have e4 : mtimeLinePred ("  size: ".toList ++ S) = false := mtimeLinePred_size S
  have e5 : mtimeLinePred ("  mtime: ".toList ++ M) = true := mtimeLinePred_true M
  simp only [writtenMetaLines, List.cons_append, List.nil_append,
    List.find?_cons, e0, e1, e2, e3, e4, e5]
  rfl

theorem fastChecks_written (h mime S M ts : Line) (layout : List Line)
    (fname : Line) (body : List Line) :
    fastChecks (writtenMetaLines h mime S M ts layout fname body) M S := by
  refine ⟨⟨"  mtime: ".toList ++ M, ?_, ⟨[' ', ' '], [], ?_⟩⟩,
    ⟨"  size: ".toList ++ S, ?_, ⟨[' ', ' '], [], ?_⟩⟩,
    ⟨"  pipeline: ".toList ++ PIPELINE_ID, ?_, ⟨[' ', ' '], [], ?_⟩⟩⟩
  · simp [writtenMetaLines]
  · rw [List.append_nil]; rfl
  · simp [writtenMetaLines]
  · rw [List.append_nil]; rfl
  · simp [writtenMetaLines]
  · rw [List.append_nil]; rfl

theorem hashChecks_written (h mime S M ts : Line) (layout : List Line)
    (fname : Line) (body : List Line) :
    hashChecks (writtenMetaLines h mime S M ts layout fname body) h := by
  refine ⟨⟨"  sha256: ".toList ++ h, ?_, ⟨[' ', ' '], [], ?_⟩⟩,
    ⟨"  pipeline: ".toList ++ PIPELINE_ID, ?_, ⟨[' ', ' '], [], ?_⟩⟩⟩
  · simp [writtenMetaLines]
  · rw [List.append_nil]; rfl
  · simp [writtenMetaLines]
  · rw [List.append_nil]; rfl

theorem gen_fastValid {e : GenEnv} {c : List Line} {M S : Line}
    (h1 : e.ignored = false) (h2 : e.stat = some (M, S)) (h3 : e.force = false)
    (h4 : e.meta = some c) (h5 : fastChecks c M S) :
    generate_file_meta e = ⟨true, false, false, none⟩ := by
  simp [generate_file_meta, h1, h2, h3, h4, h5]

theorem gen_nostat {e : GenEnv} (h1 : e.ignored = false) (h2 : e.stat = none) :
    generate_file_meta e = ⟨false, false, false, none⟩ := by
  simp [generate_file_meta, h1, h2]

theorem gen_fresh {e : GenEnv} {M S h : Line} (h1 : e.ignored = false)
    (h2 : e.stat = some (M, S)) (h3 : e.meta = none) (h4 : e.hash = some h) :
    generate_file_meta e = extractOutcome e M S h := by
  simp [generate_file_meta, h1, h2, h3, h4]

theorem gen_nohash {e : GenEnv} {c : List Line} {M S : Line}
    (h1 : e.ignored = false) (h2 : e.stat = some (M, S)) (h3 : e.meta = some c)
    (h4 : ¬ (e.force = false ∧ fastChecks c M S)) (h5 : e.hash = none) :
    generate_file_meta e = ⟨false, true, false, none⟩ := by
  simp [generate_file_meta, h1, h2, h3, h5, h4]

theorem gen_nohash_nometa {e : GenEnv} {M S : Line}
    (h1 : e.ignored = false) (h2 : e.stat = some (M, S)) (h3 : e.meta = none)
    (h5 : e.hash = none) :
    generate_file_meta e = ⟨false, true, false, none⟩ := by
  simp [generate_file_meta, h1, h2, h3, h5]

/-- C1: when an artifact exists, force is off, and the rendered current
mtime, current size and running pipeline version are all found in the
artifact text, `generate_file_meta` returns the artifact path having
computed no content hash, run no extractor, and written nothing (so the
artifact bytes and its modification time are unchanged). -/
theorem far_c1 (e : GenEnv) (c : List Line) (M S : Line)
    (h1 : e.ignored = false) (h2 : e.stat = some (M, S)) (h3 : e.force = false)
    (h4 : e.meta = some c)
    (hm : containsLine c (mtimeNeedle M)) (hs : containsLine c (sizeNeedle S))
    (hp : containsLine c pipelineNeedle) :
    generate_file_meta e = ⟨true, false, false, none⟩ :=
  gen_fastValid h1 h2 h3 h4 ⟨hm, hs, hp⟩

theorem far_c1_witness :
    containsLine c1meta (mtimeNeedle "123.0".toList)
    ∧ containsLine c1meta (sizeNeedle "10".toList)
    ∧ containsLine c1meta pipelineNeedle
    ∧ generate_file_meta c1env = ⟨true, false, false, none⟩ :=
  ⟨by decide, by decide, by decide,
    far_c1 c1env c1meta "123.0".toList "10".toList rfl rfl rfl rfl
      (by decide) (by decide) (by decide)⟩

/-- C3 (amended): an artifact whose text nowhere contains the rendered
running pipeline identifier is unconditionally re-extracted and rewritten,
even when the current mtime, size and content hash all match the recorded
ones.  (The original claim, quantified over every artifact whose recorded
pipeline version differs, fails: the check is a substring test, so a
recorded version of which the running identifier is a prefix, or a body
that embeds the identifier, is accepted as current - see the
counterexample.) -/
theorem far_c3 (e : GenEnv) (c : List Line) (M S h : Line)
    (h1 : e.ignored = false) (h2 : e.stat = some (M, S))
    (h4 : e.meta = some c) (hh : e.hash = some h)
    (hp : ¬ containsLine c pipelineNeedle) :
    generate_file_meta e = extractOutcome e M S h := by
  have hfast : ¬ (e.force = false ∧ fastChecks c M S) :=
    fun hx => hp hx.2.2.2
  have hhash : ¬ (e.force = false ∧ hashChecks c h) :=
    fun hx => hp hx.2.2
  simp [generate_file_meta, h1, h2, h4, hh, hfast, hhash]

theorem far_c3_counterexample :
    recordedPipeline c3meta = some "far_gen_v12_extra".toList
    ∧ some PIPELINE_ID ≠ recordedPipeline c3meta
    ∧ generate_file_meta c3env = ⟨true, false, false, none⟩ := by
  refine ⟨by decide, by decide, ?_⟩
  decide

theorem far_c3_witness :
    ¬ containsLine c3wmeta pipelineNeedle
    ∧ generate_file_meta c3wenv
      = extractOutcome c3wenv "123.0".toList "10".toList "aa11".toList :=
  ⟨by decide,
    far_c3 c3wenv c3wmeta "123.0".toList "10".toList "aa11".toList
      rfl rfl rfl rfl (by decide)⟩

/-- C5: a file whose `os.stat` raises `FileNotFoundError` is abandoned
with no artifact work at all; a file whose hash computation returns null
(vanished or unreadable) is abandoned after the hash attempt; in both
cases nothing is returned and nothing is written, and the processing loop
of the directory walk handles every other listed file exactly as it would
have in isolation (failures do not stop the siblings). -/
theorem far_c5 (e1 e2 e3 : GenEnv) (c : List Line) (M2 S2 M3 S3 : Line)
    (ts : Line) (pre post : List (Line × GenEnv)) (p : Line × GenEnv)
    (a1 : e1.ignored = false) (a2 : e1.stat = none)
    (b1 : e2.ignored = false) (b2 : e2.stat = some (M2, S2))
    (b3 : e2.meta = some c) (b4 : ¬ (e2.force = false ∧ fastChecks c M2 S2))
    (b5 : e2.hash = none)
    (d1 : e3.ignored = false) (d2 : e3.stat = some (M3, S3))
    (d3 : e3.meta = none) (d5 : e3.hash = none) :
    generate_file_meta e1 = ⟨false, false, false, none⟩
    ∧ generate_file_meta e2 = ⟨false, true, false, none⟩
    ∧ generate_file_meta e3 = ⟨false, true, false, none⟩
    ∧ passResults ts (pre ++ p :: post)
      = passResults ts pre ++ stepFile ts p :: passResults ts post :=
  ⟨gen_nostat a1 a2, gen_nohash b1 b2 b3 b4 b5, gen_nohash_nometa d1 d2 d3 d5,
    by simp [passResults]⟩

theorem far_c5_witness :
    generate_file_meta c5envStat = ⟨false, false, false, none⟩
    ∧ generate_file_meta c5envHash = ⟨false, true, false, none⟩
    ∧ generate_file_meta c5envFresh = ⟨false, true, false, none⟩
    ∧ passResults "t".toList ([("a".toList, c1env)] ++ ("b".toList, c5envStat)
        :: [("c".toList, c5envFresh)])
      = passResults "t".toList [("a".toList, c1env)]
        ++ stepFile "t".toList ("b".toList, c5envStat)
        :: passResults "t".toList [("c".toList, c5envFresh)] :=
  far_c5 c5envStat c5envHash c5envFresh c1meta "5.0".toList "3".toList
    "5.0".toList "3".toList "t".toList [("a".toList, c1env)]
    [("c".toList, c5envFresh)] ("b".toList, c5envStat)
    rfl rfl rfl rfl rfl (by decide) rfl rfl rfl rfl rfl

theorem map_replace_id (pat rep : Line) :
    ∀ L : List Line, (∀ l ∈ L, ¬ pat <:+: l) →
      L.map (fun l => replaceAll pat rep l) = L := by
  intro L
  induction L with
  | nil => intro _; rfl
  | cons a t ih =>
    intro hL
    rw [List.map_cons, replaceAll_of_not_infix rep (hL a (by simp)),
      ih (fun l hl => hL l (by simp [hl]))]

/-- C2 (amended): when the cheap check fails but the fresh hash and the
running pipeline version match a well-formed stored artifact - one of the
shape this pipeline writes, whose recorded mtime line occurs nowhere else
in the artifact as a substring - `generate_file_meta` rewrites the
artifact with only the recorded mtime replaced by the current one: body,
extracted-at timestamp, recorded hash and recorded size are all byte-wise
unchanged, no extractor runs, and the artifact path is returned.  (The
original claim, over every artifact passing the hash check, fails: an
artifact without any mtime line passes the hash check yet is fully
re-extracted - see the counterexample.) -/
theorem far_c2 (e : GenEnv) (h0 mime0 S0 M0 ts0 : Line)
    (layout0 body0 : List Line) (fname0 : Line) (M S : Line)
    (h1 : e.ignored = false) (h2 : e.stat = some (M, S)) (h3 : e.force = false)
    (h4 : e.meta = some (writtenMetaLines h0 mime0 S0 M0 ts0 layout0 fname0 body0))
    (h5 : e.hash = some h0)
    (h6 : ¬ fastChecks (writtenMetaLines h0 mime0 S0 M0 ts0 layout0 fname0 body0) M S)
    (h7 : ∀ l ∈ ["--far_version: 1".toList, "source:".toList,
        "  sha256: ".toList ++ h0, "  mime: ".toList ++ mime0,
        "  size: ".toList ++ S0, "extract:".toList,
        "  pipeline: ".toList ++ PIPELINE_ID,
        "  extracted_at: ".toList ++ ts0, "  deterministic: true".toList,
        "---".toList, "# ".toList ++ fname0, ([] : Line)],
      ¬ (mtimeKey ++ M0) <:+: l)
    (h8 : ∀ l ∈ layout0, ¬ (mtimeKey ++ M0) <:+: l)
    (h9 : ∀ l ∈ body0, ¬ (mtimeKey ++ M0) <:+: l) :
    generate_file_meta e
      = ⟨true, true, false,
          some (writtenMetaLines h0 mime0 S0 M ts0 layout0 fname0 body0)⟩ := by
  have hw := hashChecks_written h0 mime0 S0 M0 ts0 layout0 fname0 body0
  have hfind := find?_mtime_written h0 mime0 S0 M0 ts0 layout0 fname0 body0
  have hpat : (mtimeKey ++ M0 : Line) ≠ [] := by simp [mtimeKey]
  have hmap : (writtenMetaLines h0 mime0 S0 M0 ts0 layout0 fname0 body0).map
      (fun l => replaceAll (mtimeKey ++ M0) (mtimeKey ++ M) l)
      = writtenMetaLines h0 mime0 S0 M ts0 layout0 fname0 body0 := by
    simp only [writtenMetaLines, List.map_append, List.map_cons, List.map_nil]
    rw [map_replace_id _ _ _ h8, map_replace_id _ _ _ h9,
      replaceAll_of_not_infix _ (h7 ("--far_version: 1".toList) (by simp)),
      replaceAll_of_not_infix _ (h7 ("source:".toList) (by simp)),
      replaceAll_of_not_infix _ (h7 ("  sha256: ".toList ++ h0) (by simp)),
      replaceAll_of_not_infix _ (h7 ("  mime: ".toList ++ mime0) (by simp)),
      replaceAll_of_not_infix _ (h7 ("  size: ".toList ++ S0) (by simp)),
      show ("  mtime: ".toList ++ M0 : Line) = mtimeKey ++ M0 from rfl,
      replaceAll_self _ _ hpat,
      replaceAll_of_not_infix _ (h7 ("extract:".toList) (by simp)),
      replaceAll_of_not_infix _ (h7 ("  pipeline: ".toList ++ PIPELINE_ID) (by simp)),
      replaceAll_of_not_infix _ (h7 ("  extracted_at: ".toList ++ ts0) (by simp)),
      replaceAll_of_not_infix _ (h7 ("  deterministic: true".toList) (by simp)),
      replaceAll_of_not_infix _ (h7 ("---".toList) (by simp)),
      replaceAll_of_not_infix _ (h7 ("# ".toList ++ fname0) (by simp)),
      replaceAll_of_not_infix _ (h7 ([] : Line) (by simp))]
    rfl
  simp [generate_file_meta, h1, h2, h3, h4, h5, h6, hw, hfind, hmap]

theorem far_c2_counterexample :
    hashChecks c2badmeta "aa11".toList
    ∧ ¬ fastChecks c2badmeta "9.0".toList "3".toList
    ∧ (generate_file_meta c2badenv).extracted = true := by
  refine ⟨by decide, by decide, ?_⟩
  decide

theorem far_c2_witness :
    ¬ fastChecks c2wmeta "10.5".toList "3".toList
    ∧ generate_file_meta c2wenv
      = ⟨true, true, false,
          some (writtenMetaLines "aa11".toList "text/plain".toList "3".toList
            "10.5".toList "t0".toList [] "f.txt".toList ["hi".toList])⟩ :=
  ⟨by decide,
    far_c2 c2wenv "aa11".toList "text/plain".toList "3".toList "9.0".toList
      "t0".toList [] ["hi".toList] "f.txt".toList "10.5".toList "3".toList
      rfl rfl rfl rfl rfl (by decide) (by decide) (by decide) (by decide)⟩

theorem sweep_foldl_mem (files : List Line) :
    ∀ (L : List Line) (disk : List Line), disk.Nodup → ∀ x : Line,
      (x ∈ L.foldl (fun d f => if isOrphanMeta files f then d.erase f else d) disk
        ↔ x ∈ disk ∧ ¬ (x ∈ L ∧ isOrphanMeta files x)) := by
  intro L
  induction L with
  | nil =>
    intro disk _ x
    simp
  | cons f t ih =>
    intro disk hnd x
    rw [List.foldl_cons]
    have hnd2 : (if isOrphanMeta files f then disk.erase f else disk).Nodup := by
      split
      · exact hnd.erase f
      · exact hnd
    rw [ih _ hnd2 x]
    by_cases ho : isOrphanMeta files f
    · rw [if_pos ho] at *
      rw [hnd.mem_erase_iff]
      constructor
      · rintro ⟨⟨hxf, hxd⟩, hnt⟩
        refine ⟨hxd, ?_⟩
        rintro ⟨hxm, hxo⟩
        rcases List.mem_cons.mp hxm with h | h
        · exact hxf h
        · exact hnt ⟨h, hxo⟩
      · rintro ⟨hxd, hn⟩
        refine ⟨⟨fun hxf => hn ⟨by simp [hxf], by rwa [hxf]⟩, hxd⟩, ?_⟩
        rintro ⟨hxt, hxo⟩
        exact hn ⟨by simp [hxt], hxo⟩
    · rw [if_neg ho] at *
      constructor
      · rintro ⟨hxd, hnt⟩
        refine ⟨hxd, ?_⟩
        rintro ⟨hxm, hxo⟩
        rcases List.mem_cons.mp hxm with h | h
        · exact ho (h ▸ hxo)
        · exact hnt ⟨h, hxo⟩
      · rintro ⟨hxd, hn⟩
        refine ⟨hxd, ?_⟩
        rintro ⟨hxt, hxo⟩
        exact hn ⟨by simp [hxt], hxo⟩

/-- C8: over a duplicate-free directory listing, the orphan sweep removes
exactly the `.meta` files (other than `.dir.meta`) whose name minus the
suffix is absent from the listing; conversely every `.meta` file whose
source file is present survives the sweep.  The sweep runs on the listing
before any file is processed (structurally: `runDir` consumes the listing
the sweep already acted on). -/
theorem far_c8 (files : List Line) (hnd : files.Nodup) :
    (∀ f, f ∈ sweepOrphans files files ↔ f ∈ files ∧ ¬ isOrphanMeta files f)
    ∧ (∀ f, f ∈ files → ".meta".toList <:+ f →
        f.take (f.length - 5) ∈ files → f ∈ sweepOrphans files files) := by
  have hh := sweep_foldl_mem files files files hnd
  constructor
  · intro f
    rw [sweepOrphans, hh f]
    constructor
    · rintro ⟨hf, hn⟩
      exact ⟨hf, fun ho => hn ⟨hf, ho⟩⟩
    · rintro ⟨hf, hn⟩
      exact ⟨hf, fun q => hn q.2⟩
  · intro f hf _ hsrc
    rw [sweepOrphans, hh f]
    exact ⟨hf, fun q => q.2.2.2 hsrc⟩

theorem far_c8_witness :
    c8files.Nodup
    ∧ ("b.txt.meta".toList ∈ sweepOrphans c8files c8files
        ↔ "b.txt.meta".toList ∈ c8files ∧ ¬ isOrphanMeta c8files "b.txt.meta".toList)
    ∧ "a.txt.meta".toList ∈ sweepOrphans c8files c8files :=
  ⟨by decide, (far_c8 c8files (by decide)).1 _,
    (far_c8 c8files (by decide)).2 _ (by decide) (by decide) (by decide)⟩

/-- C10: the sweep never deletes `.dir.meta` and never deletes a file
whose name does not end in `.meta`: every such disk entry survives the
sweep, whatever the listing is. -/
theorem far_c10 (files disk : List Line) (hnd : disk.Nodup) (f : Line)
    (hf : f ∈ disk)
    (hprot : ¬ (".meta".toList <:+ f) ∨ f = ".dir.meta".toList) :
    f ∈ sweepOrphans files disk := by
  rw [sweepOrphans, sweep_foldl_mem files files disk hnd f]
  refine ⟨hf, ?_⟩
  rintro ⟨_, ho⟩
  rcases hprot with h | h
  · exact h ho.1
  · exact ho.2.1 h

theorem far_c10_witness :
    ".dir.meta".toList ∈ sweepOrphans ["x.meta".toList] [".dir.meta".toList, "notes.txt".toList]
    ∧ "notes.txt".toList ∈ sweepOrphans ["x.meta".toList] [".dir.meta".toList, "notes.txt".toList] :=
  ⟨far_c10 ["x.meta".toList] [".dir.meta".toList, "notes.txt".toList]
      (by decide) _ (by decide) (Or.inr rfl),
    far_c10 ["x.meta".toList] [".dir.meta".toList, "notes.txt".toList]
      (by decide) _ (by decide) (Or.inl (by decide))⟩

theorem dirEntriesLoop_take (total : Nat) :
    ∀ (es : List (Line × Option Line)) (count : Nat),
      count ≤ MAX_DIR_SUMMARY_FILES →
      dirEntriesLoop total count es
        = (es.take (MAX_DIR_SUMMARY_FILES - count)).map (fun q => entryLine q.1 q.2)
          ++ (if MAX_DIR_SUMMARY_FILES - count < es.length then
                ["\n... and ".toList
                  ++ Nat.toDigits 10 (total - MAX_DIR_SUMMARY_FILES)
                  ++ " more files.".toList]
              else []) := by
  intro es
  induction es with
  | nil =>
    intro count _
    simp [dirEntriesLoop]
  | cons q t ih =>
    intro count h
    obtain ⟨f, m⟩ := q
    by_cases hc : MAX_DIR_SUMMARY_FILES ≤ count
    · have hceq : count = MAX_DIR_SUMMARY_FILES := Nat.le_antisymm h hc
      subst hceq
      simp [dirEntriesLoop]
    · have hlt : count + 1 ≤ MAX_DIR_SUMMARY_FILES := Nat.lt_of_not_le hc
      have hsub : MAX_DIR_SUMMARY_FILES - count
          = (MAX_DIR_SUMMARY_FILES - (count + 1)) + 1 := by omega
      have hiff : (MAX_DIR_SUMMARY_FILES - (count + 1) + 1 < ((f, m) :: t).length)
          = (MAX_DIR_SUMMARY_FILES - (count + 1) < t.length) := by
        simp only [List.length_cons, eq_iff_iff]
        omega
      rw [show dirEntriesLoop total count ((f, m) :: t)
          = entryLine f m :: dirEntriesLoop total (count + 1) t from by
            simp [dirEntriesLoop, hc]]
      rw [ih (count + 1) hlt, hsub, List.take_succ_cons, List.map_cons]
      simp [hiff]

/-- C6: a directory whose processed-file list exceeds the cap of 50 gets a
directory artifact listing exactly the first 50 entries, in the order the
caller provided them, followed by one marker line counting the remaining
files; no entry beyond the cap is listed individually. -/
theorem far_c6 (d ts : Line) (entries : List (Line × Option Line))
    (hlen : MAX_DIR_SUMMARY_FILES < entries.length) :
    generate_dir_meta d ts entries
      = "--far_version: 1\ntype: directory\nextract:\n  pipeline: ".toList
        ++ PIPELINE_ID ++ "\n  extracted_at: ".toList ++ ts ++ "\n---\n".toList
        ++ List.intercalate ['\n']
          (("# Directory: ".toList ++ d)
            :: ("Contains ".toList ++ Nat.toDigits 10 entries.length
                ++ " files processed by FAR.\n".toList)
            :: ((entries.take MAX_DIR_SUMMARY_FILES).map (fun q => entryLine q.1 q.2)
                ++ ["\n... and ".toList
                    ++ Nat.toDigits 10 (entries.length - MAX_DIR_SUMMARY_FILES)
                    ++ " more files.".toList]))
        ++ ['\n'] := by
  unfold generate_dir_meta
  rw [dirEntriesLoop_take entries.length entries 0 (by omega)]
  simp only [Nat.sub_zero]
  rw [if_pos hlen]

theorem far_c6_witness :
    MAX_DIR_SUMMARY_FILES < c6entries.length
    ∧ generate_dir_meta "docs".toList "t".toList c6entries
      = "--far_version: 1\ntype: directory\nextract:\n  pipeline: ".toList
        ++ PIPELINE_ID ++ "\n  extracted_at: ".toList ++ "t".toList
        ++ "\n---\n".toList
        ++ List.intercalate ['\n']
          (("# Directory: ".toList ++ "docs".toList)
            :: ("Contains ".toList ++ Nat.toDigits 10 c6entries.length
                ++ " files processed by FAR.\n".toList)
            :: ((c6entries.take MAX_DIR_SUMMARY_FILES).map
                  (fun q => entryLine q.1 q.2)
                ++ ["\n... and ".toList
                    ++ Nat.toDigits 10 (c6entries.length - MAX_DIR_SUMMARY_FILES)
                    ++ " more files.".toList]))
        ++ ['\n'] :=
  ⟨by decide, far_c6 "docs".toList "t".toList c6entries (by decide)⟩

/-- C7 (amended): the snippet is the stripped, title-less, whitespace
collapsed body, truncated to 150 characters - but the ellipsis marker is
appended whenever that text is nonempty, truncated or not; only an empty
collapsed body yields a snippet with no marker.  (The original claim, that
the marker appears only on truncation, fails - see the counterexample.) -/
theorem far_c7 (content : Option Line) :
    snippetOf content
      = (if cleanOf content = [] then []
         else cleanOf content ++ "...".toList)
    ∧ (cleanOf content).length ≤ 150 := by
  constructor
  · cases content with
    | none => simp [snippetOf, cleanOf]
    | some raw =>
      simp only [snippetOf, cleanOf]
      by_cases hp : 2 ≤ (pySplitOn "\n---\n".toList raw).length
      · rw [if_pos hp, if_pos hp]
      · rw [if_neg hp, if_neg hp]
        simp
  · cases content with
    | none => simp [cleanOf]
    | some raw =>
      simp only [cleanOf]
      by_cases hp : 2 ≤ (pySplitOn "\n---\n".toList raw).length
      · rw [if_pos hp]
        simp [List.length_take]
      · rw [if_neg hp]
        simp

set_option maxRecDepth 40000 in
theorem far_c7_counterexample :
    (cleanOf (some c7raw)).length ≤ 150
    ∧ snippetOf (some c7raw) = "hello world...".toList
    ∧ "...".toList <:+ snippetOf (some c7raw) := by
  refine ⟨by decide, by decide, by decide⟩

theorem gen_touch_raw {e : GenEnv} {c : List Line} {M S h old : Line}
    (h1 : e.ignored = false) (h2 : e.stat = some (M, S)) (h3 : e.force = false)
    (h4 : e.meta = some c) (h5 : e.hash = some h)
    (hf : ¬ fastChecks c M S) (hh : hashChecks c h)
    (hfind : c.find? mtimeLinePred = some old) :
    generate_file_meta e
      = ⟨true, true, false,
          some (c.map (fun l => replaceAll old (mtimeKey ++ M) l))⟩ := by
  simp [generate_file_meta, h1, h2, h3, h4, h5, hf, hh, hfind]

theorem gen_extract_find_none {e : GenEnv} {c : List Line} {M S h : Line}
    (h1 : e.ignored = false) (h2 : e.stat = some (M, S))
    (h4 : e.meta = some c) (h5 : e.hash = some h)
    (hf : ¬ (e.force = false ∧ fastChecks c M S))
    (hfind : c.find? mtimeLinePred = none) :
    generate_file_meta e = extractOutcome e M S h := by
  by_cases hh : e.force = false ∧ hashChecks c h
  · have hf2 : ¬ fastChecks c M S := fun x => hf ⟨hh.1, x⟩
    simp [generate_file_meta, h1, h2, h4, h5, hf2, hh, hfind]
  · simp [generate_file_meta, h1, h2, h4, h5, hf, hh]

theorem gen_extract_not_hash {e : GenEnv} {c : List Line} {M S h : Line}
    (h1 : e.ignored = false) (h2 : e.stat = some (M, S))
    (h4 : e.meta = some c) (h5 : e.hash = some h)
    (hf : ¬ (e.force = false ∧ fastChecks c M S))
    (hh : ¬ (e.force = false ∧ hashChecks c h)) :
    generate_file_meta e = extractOutcome e M S h := by
  simp [generate_file_meta, h1, h2, h4, h5, hf, hh]

/-- C9: artifact validity is a pure substring test over the artifact text.
First part: under the fast-path scaffolding, the call returns the
unchanged-artifact outcome exactly when the rendered current mtime, size
and pipeline strings occur anywhere in the text.  Second part: when the
cheap test fails and the artifact has an mtime line, the call avoids
re-extraction exactly when the rendered hash and pipeline strings occur
anywhere.  Third part: a concrete stale artifact whose header records
mtime 111.0 and size 999 is accepted untouched because its body text
embeds the current renderings. -/
theorem far_c9 :
    (∀ (e : GenEnv) (c : List Line) (M S : Line),
      e.ignored = false → e.stat = some (M, S) → e.force = false →
      e.meta = some c →
      (generate_file_meta e = ⟨true, false, false, none⟩ ↔ fastChecks c M S))
    ∧ (∀ (e : GenEnv) (c : List Line) (M S h old : Line),
      e.ignored = false → e.stat = some (M, S) → e.force = false →
      e.meta = some c → e.hash = some h → ¬ fastChecks c M S →
      c.find? mtimeLinePred = some old →
      ((generate_file_meta e).extracted = false ↔ hashChecks c h))
    ∧ (recordedMtime c9meta = some "111.0".toList
      ∧ recordedSize c9meta = some "999".toList
      ∧ generate_file_meta c9env = ⟨true, false, false, none⟩) := by
  refine ⟨?_, ?_, by decide, by decide, by decide⟩
  · intro e c M S h1 h2 h3 h4
    constructor
    · intro hEq
      by_contra hf
      cases hh : e.hash with
      | none =>
        rw [gen_nohash h1 h2 h4 (fun q => hf q.2) hh] at hEq
        simp at hEq
      | some h =>
        by_cases hhc : hashChecks c h
        · cases hfind : c.find? mtimeLinePred with
          | some old =>
            rw [gen_touch_raw h1 h2 h3 h4 hh hf hhc hfind] at hEq
            simp at hEq
          | none =>
            rw [gen_extract_find_none h1 h2 h4 hh (fun q => hf q.2) hfind] at hEq
            simp [extractOutcome] at hEq
        · rw [gen_extract_not_hash h1 h2 h4 hh (fun q => hf q.2)
            (fun q => hhc q.2)] at hEq
          simp [extractOutcome] at hEq
    · exact fun hf => gen_fastValid h1 h2 h3 h4 hf
  · intro e c M S h old h1 h2 h3 h4 h5 hf hfind
    constructor
    · intro hEx
      by_contra hhc
      rw [gen_extract_not_hash h1 h2 h4 h5 (fun q => hf q.2)
        (fun q => hhc q.2)] at hEx
      simp [extractOutcome] at hEx
    · intro hhc
      rw [gen_touch_raw h1 h2 h3 h4 h5 hf hhc hfind]

theorem far_c9_witness :
    generate_file_meta c9env = ⟨true, false, false, none⟩
      ↔ fastChecks c9meta "222.0".toList "55".toList :=
  far_c9.1 c9env c9meta "222.0".toList "55".toList rfl rfl rfl rfl

theorem passResults_cons (ts : Line) (p : Line × GenEnv)
    (t : List (Line × GenEnv)) :
    passResults ts (p :: t) = stepFile ts p :: passResults ts t := rfl

theorem updateMetas_cons (p : Line × GenEnv) (t : List (Line × GenEnv))
    (m : Option (List Line)) (ms : List (Option (List Line))) :
    updateMetas (p :: t) (m :: ms)
      = (p.1, { p.2 with meta := m }) :: updateMetas t ms := rfl

theorem processedOf_cons (r : Line × GenEnv × Outcome)
    (rs : List (Line × GenEnv × Outcome)) (h : r.2.2.ret = true) :
    processedOf (r :: rs)
      = (r.1, (metaAfter r.2.1 r.2.2).map rawOf) :: processedOf rs := by
  simp [processedOf, List.filter_cons, h]

theorem two_pass_core (ts1 ts2 : Line) :
    ∀ fs : List (Line × GenEnv), (∀ p ∈ fs, GoodEnv p) →
      (passResults ts2 (updateMetas fs
          ((passResults ts1 fs).map (fun r => metaAfter r.2.1 r.2.2)))).map
            (fun r => metaAfter r.2.1 r.2.2)
        = (passResults ts1 fs).map (fun r => metaAfter r.2.1 r.2.2)
      ∧ (∀ r ∈ passResults ts2 (updateMetas fs
            ((passResults ts1 fs).map (fun r => metaAfter r.2.1 r.2.2))),
          r.2.2 = ⟨true, false, false, none⟩)
      ∧ processedOf (passResults ts2 (updateMetas fs
            ((passResults ts1 fs).map (fun r => metaAfter r.2.1 r.2.2))))
        = processedOf (passResults ts1 fs)
      ∧ (∀ r ∈ passResults ts1 fs, r.2.2.ret = true)
      ∧ (processedOf (passResults ts1 fs)).length = fs.length := by
  intro fs
  induction fs with
  | nil =>
    intro _
    refine ⟨?_, ?_, ?_, ?_, ?_⟩ <;> simp [passResults, processedOf, updateMetas]
  | cons p t ih =>
    intro hG
    have hGt : ∀ q ∈ t, GoodEnv q := fun q hq => hG q (by simp [hq])
    obtain ⟨hig, hfo, ⟨⟨M, S⟩, hstat⟩, ⟨h, hhash⟩, hmeta⟩ := hG p (by simp)
    obtain ⟨ihA, ihB, ihC, ihD, ihE⟩ := ih hGt
    have ho1 : generate_file_meta { p.2 with ts := ts1 }
        = extractOutcome { p.2 with ts := ts1 } M S h :=
      gen_fresh hig hstat hmeta hhash
    have ho2 : generate_file_meta
        { p.2 with
          meta := some (writtenMetaLines h p.2.mime S M ts1 p.2.layout
            p.2.fname p.2.body),
          ts := ts2 }
        = ⟨true, false, false, none⟩ :=
      gen_fastValid hig hstat hfo rfl
        (fastChecks_written h p.2.mime S M ts1 p.2.layout p.2.fname p.2.body)
    have F1 : stepFile ts1 p
        = (p.1, { p.2 with ts := ts1 },
            extractOutcome { p.2 with ts := ts1 } M S h) := by
      simp [stepFile, ho1]
    have F2 : metaAfter { p.2 with ts := ts1 }
        (extractOutcome { p.2 with ts := ts1 } M S h)
        = some (writtenMetaLines h p.2.mime S M ts1 p.2.layout
            p.2.fname p.2.body) := rfl
    have F3 : stepFile ts2
        (p.1, { p.2 with
          meta := some (writtenMetaLines h p.2.mime S M ts1 p.2.layout
            p.2.fname p.2.body) })
        = (p.1,
            { p.2 with
              meta := some (writtenMetaLines h p.2.mime S M ts1 p.2.layout
                p.2.fname p.2.body),
              ts := ts2 },
            (⟨true, false, false, none⟩ : Outcome)) := by
      simp [stepFile, ho2]
    have F4 : metaAfter
        { p.2 with
          meta := some (writtenMetaLines h p.2.mime S M ts1 p.2.layout
            p.2.fname p.2.body),
          ts := ts2 }
        (⟨true, false, false, none⟩ : Outcome)
        = some (writtenMetaLines h p.2.mime S M ts1 p.2.layout
            p.2.fname p.2.body) := rfl
    rw [passResults_cons ts1, F1, List.map_cons, F2, updateMetas_cons,
      passResults_cons ts2, F3]
    refine ⟨?_, ?_, ?_, ?_, ?_⟩
    · exact congrArg₂ List.cons F4 ihA
    · intro r hr
      rcases List.mem_cons.mp hr with hhead | htail
      · rw [hhead]
      · exact ihB r htail
    · rw [processedOf_cons
          (p.1,
            { p.2 with
              meta := some (writtenMetaLines h p.2.mime S M ts1 p.2.layout
                p.2.fname p.2.body),
              ts := ts2 },
            (⟨true, false, false, none⟩ : Outcome)) _ rfl,
        processedOf_cons
          (p.1, { p.2 with ts := ts1 },
            extractOutcome { p.2 with ts := ts1 } M S h) _ rfl]
      exact congrArg₂ List.cons (by rw [F2, F4]) ihC
    · intro r hr
      rcases List.mem_cons.mp hr with hhead | htail
      · rw [hhead]
        rfl
      · exact ihD r htail
    · rw [processedOf_cons
          (p.1, { p.2 with ts := ts1 },
            extractOutcome { p.2 with ts := ts1 } M S h) _ rfl,
        List.length_cons, ihE, List.length_cons]

theorem generate_dir_meta_ts_inj (d : Line) (E : List (Line × Option Line))
    (t1 t2 : Line)
    (h : generate_dir_meta d t1 E = generate_dir_meta d t2 E) : t1 = t2 := by
  simp only [generate_dir_meta, List.append_assoc] at h
  exact List.append_cancel_right
    (List.append_cancel_left (List.append_cancel_left (List.append_cancel_left h)))

/-- C4 (amended): over an unchanged tree, the second pass performs zero
hashing and zero extraction, returns every artifact path, and leaves every
per-file artifact byte-identical and unwritten; the per-directory
`.dir.meta` artifact, however, is rewritten on every pass in which some
file was processed, with the fresh pass timestamp in its
`extracted_at` line, so its bytes and its modification time change
whenever the timestamps differ.  (The original claim, extending
byte-identity and untouched modification times to `.dir.meta`, fails -
see the counterexample.) -/
theorem far_c4 (d : Line) (fs : List (Line × GenEnv)) (ts1 ts2 : Line)
    (hG : ∀ p ∈ fs, GoodEnv p) (hne : fs ≠ []) :
    (runDir d (updateMetas fs (runDir d fs ts1).metasAfter) ts2).metasAfter
      = (runDir d fs ts1).metasAfter
    ∧ (∀ o ∈ (runDir d (updateMetas fs (runDir d fs ts1).metasAfter)
        ts2).outcomes, o = ⟨true, false, false, none⟩)
    ∧ (∃ E, (runDir d fs ts1).dirMeta = some (generate_dir_meta d ts1 E)
        ∧ (runDir d (updateMetas fs (runDir d fs ts1).metasAfter) ts2).dirMeta
          = some (generate_dir_meta d ts2 E))
    ∧ (ts1 ≠ ts2 →
        (runDir d (updateMetas fs (runDir d fs ts1).metasAfter) ts2).dirMeta
          ≠ (runDir d fs ts1).dirMeta) := by
  obtain ⟨hA, hB, hC, _, hE⟩ := two_pass_core ts1 ts2 fs hG
  have hlen : (processedOf (passResults ts1 fs)).length ≠ 0 := by
    rw [hE]
    simpa using fun hx => hne (List.length_eq_zero.mp hx)
  have hne1 : (processedOf (passResults ts1 fs)).isEmpty = false := by
    rcases hx : processedOf (passResults ts1 fs) with _ | _
    · exact absurd (by rw [hx]; rfl) hlen
    · rfl
  have hd1 : (runDir d fs ts1).dirMeta
      = some (generate_dir_meta d ts1 (processedOf (passResults ts1 fs))) := by
    show (if (processedOf (passResults ts1 fs)).isEmpty then none
      else some (generate_dir_meta d ts1 (processedOf (passResults ts1 fs)))) = _
    rw [hne1]
    rfl
  have hne2 : (processedOf (passResults ts2 (updateMetas fs
      ((passResults ts1 fs).map (fun r => metaAfter r.2.1 r.2.2))))).isEmpty
      = false := by
    rw [hC]
    exact hne1
  have hd2 : (runDir d (updateMetas fs (runDir d fs ts1).metasAfter)
      ts2).dirMeta
      = some (generate_dir_meta d ts2 (processedOf (passResults ts1 fs))) := by
    show (if (processedOf (passResults ts2 (updateMetas fs
        ((passResults ts1 fs).map (fun r => metaAfter r.2.1 r.2.2))))).isEmpty
      then none
      else some (generate_dir_meta d ts2 (processedOf (passResults ts2
        (updateMetas fs ((passResults ts1 fs).map
          (fun r => metaAfter r.2.1 r.2.2))))))) = _
    rw [hne2, hC]
    rfl
  refine ⟨hA, ?_, ⟨processedOf (passResults ts1 fs), hd1, hd2⟩, ?_⟩
  · intro o ho
    have ho2 : o ∈ (passResults ts2 (updateMetas fs
        ((passResults ts1 fs).map (fun r => metaAfter r.2.1 r.2.2)))).map
          (fun r => r.2.2) := ho
    obtain ⟨r, hr, hro⟩ := List.mem_map.mp ho2
    rw [← hro]
    exact hB r hr
  · intro hts hEq
    rw [hd1, hd2] at hEq
    exact hts (generate_dir_meta_ts_inj d _ ts2 ts1 (Option.some.inj hEq)).symm

theorem far_c4_witness :
    c4fs ≠ []
    ∧ ((runDir "d".toList (updateMetas c4fs
          (runDir "d".toList c4fs "t1".toList).metasAfter) "t2".toList).metasAfter
        = (runDir "d".toList c4fs "t1".toList).metasAfter
      ∧ (∀ o ∈ (runDir "d".toList (updateMetas c4fs
          (runDir "d".toList c4fs "t1".toList).metasAfter) "t2".toList).outcomes,
          o = ⟨true, false, false, none⟩)
      ∧ (∃ E, (runDir "d".toList c4fs "t1".toList).dirMeta
            = some (generate_dir_meta "d".toList "t1".toList E)
          ∧ (runDir "d".toList (updateMetas c4fs
              (runDir "d".toList c4fs "t1".toList).metasAfter) "t2".toList).dirMeta
            = some (generate_dir_meta "d".toList "t2".toList E))
      ∧ ("t1".toList ≠ "t2".toList →
          (runDir "d".toList (updateMetas c4fs
            (runDir "d".toList c4fs "t1".toList).metasAfter) "t2".toList).dirMeta
            ≠ (runDir "d".toList c4fs "t1".toList).dirMeta)) :=
  ⟨by decide,
    far_c4 "d".toList c4fs "t1".toList "t2".toList
      (by
        intro p hp
        simp only [c4fs, List.mem_singleton] at hp
        subst hp
        exact ⟨rfl, rfl, ⟨_, rfl⟩, ⟨_, rfl⟩, rfl⟩)
      (by decide)⟩

set_option maxRecDepth 100000 in
theorem far_c4_counterexample :
    (runDir "d".toList (updateMetas c4fs
        (runDir "d".toList c4fs "t1".toList).metasAfter) "t2".toList).dirMeta
      ≠ (runDir "d".toList c4fs "t1".toList).dirMeta
    ∧ (runDir "d".toList (updateMetas c4fs
        (runDir "d".toList c4fs "t1".toList).metasAfter) "t2".toList).dirMeta
      ≠ none := by
  refine ⟨by decide, by decide⟩
